import Mathlib

/-!
# Verification of the persona chat application

Shallow embedding of the two revisions of the persona system:

* `Base` models `persona-simulation-system.py` (the "base revision"):
  `PersonaConfig`, `PersonaFactory` with its persona/category registries,
  `create_agent` (system-message composition and agent naming), and the
  operator-selection loops of the console UI.
* `Enh` models `persona-simulation-system_solution.py` (the "extended
  revision"): the `ProblemType` enumeration, the problem-solving
  framework data, `create_problem_solving_agent` /
  `create_specialized_agent`, `ProblemSolvingSession`,
  `ProblemSolvingBattle`, and the battle participant-selection loop.

Python dictionaries are modelled as association lists with insertion
order and last-write-wins in-place update (`alookup` / `dinsert`),
matching CPython dict semantics.  External chat collaborators are
modelled as response oracles (`Nat → String`); every `agent.run(task)`
call is recorded as a `RespondCall` so that theorems can speak about
the number, the order and the content of collaborator invocations.
-/

namespace PersonaSim

/-- Lookup in a Python-dict-like association list (`d[k]` / `k in d`). -/
def alookup {α : Type} : List (String × α) → String → Option α
  | [], _ => none
  | (k, v) :: rest, key => if k = key then some v else alookup rest key

/-- Python dict update `d[k] = v`: overwrite in place if the key exists
(keeping its position), otherwise append, keeping insertion order. -/
def dinsert {α : Type} : List (String × α) → String → α → List (String × α)
  | [], key, v => [(key, v)]
  | (k, w) :: rest, key, v =>
    if k = key then (k, v) :: rest else (k, w) :: dinsert rest key v

/-- Python's `"\n".join(lines)` (`chr(10).join` in the source). -/
def joinLines : List String → String
  | [] => ""
  | [x] => x
  | x :: y :: rest => x ++ "\n" ++ joinLines (y :: rest)

/-- Python's `", ".join(items)`. -/
def joinComma : List String → String
  | [] => ""
  | [x] => x
  | x :: y :: rest => x ++ ", " ++ joinComma (y :: rest)

/-- Python's `"\n\n".join(items)`. -/
def joinPara : List String → String
  | [] => ""
  | [x] => x
  | x :: y :: rest => x ++ "\n\n" ++ joinPara (y :: rest)

/-- Agent name template of `PersonaFactory.create_agent`:
`f"{persona.name}_{category_key}"`. -/
def categoryAgentName (persona_name category_key : String) : String :=
  persona_name ++ "_" ++ category_key

/-- Agent name template of `PersonaFactory.create_problem_solving_agent`:
`f"{persona.name}_problem_solver"`. -/
def problemSolverAgentName (persona_name : String) : String :=
  persona_name ++ "_problem_solver"

/-- Agent name template of `PersonaFactory.create_specialized_agent`:
`f"{persona.name}_{category_key}_specialist"`. -/
def specialistAgentName (persona_name category_key : String) : String :=
  persona_name ++ "_" ++ category_key ++ "_specialist"

/-- Agent name template of `ProblemSolvingBattle.battle`:
`f"{persona.name}_battler"`. -/
def battlerAgentName (persona_name : String) : String :=
  persona_name ++ "_battler"

/-- The constructor arguments of the `AssistantAgent` collaborator that
this system supplies: an agent name and a system message. -/
structure AgentSpec where
  name : String
  systemMessage : String
  deriving DecidableEq, Repr

/-- One `agent.run(task=...)` invocation of the chat collaborator:
which agent (name and system message) was asked, and with which task. -/
structure RespondCall where
  agentName : String
  systemMessage : String
  task : String
  deriving DecidableEq, Repr

/-- One operator input at a numbered menu: `some i` for a numeric entry,
`none` for a non-numeric line (Python `int(...)` raising `ValueError`,
which the menu loops catch and re-prompt on). -/
abbrev MenuInput := Option Nat

namespace Base

/-- `PersonaConfig` of the base revision. -/
structure PersonaConfig where
  name : String
  display_name : String
  base_traits : String
  category_prompts : List (String × String)
  deriving DecidableEq, Repr

/-- The two registries owned by `PersonaFactory`. -/
structure PersonaFactory where
  personas : List (String × PersonaConfig)
  categories : List (String × String)
  deriving DecidableEq, Repr

/-- `PersonaFactory.register_persona`: stores the config under its own
`name` field. -/
def register_persona (f : PersonaFactory) (persona_config : PersonaConfig) :
    PersonaFactory :=
  { f with personas := dinsert f.personas persona_config.name persona_config }

/-- `PersonaFactory.register_category`. -/
def register_category (f : PersonaFactory) (key display_name : String) :
    PersonaFactory :=
  { f with categories := dinsert f.categories key display_name }

/-- `PersonaFactory.create_agent`: checks the persona key, then the
category key, then composes `base_traits + "\n\n" + category_prompt`
where the category prompt falls back to
`f"{display}について専門的に回答してください。"`.  A raised `ValueError`
is modelled as `Except.error` carrying the message. -/
def create_agent (f : PersonaFactory) (persona_key category_key : String) :
    Except String AgentSpec :=
  match alookup f.personas persona_key with
  | none => .error ("Unknown persona: " ++ persona_key)
  | some persona =>
    match alookup f.categories category_key with
    | none => .error ("Unknown category: " ++ category_key)
    | some category_display =>
      let category_prompt :=
        (alookup persona.category_prompts category_key).getD
          (category_display ++ "について専門的に回答してください。")
      let system_message := persona.base_traits ++ "\n\n" ++ category_prompt
      .ok ⟨categoryAgentName persona.name category_key, system_message⟩

/-- `PersonaSystemUI.select_persona` / `select_category` loop: re-prompt
until a number in `1..n` is entered; returns the chosen (1-based) index
and the unconsumed inputs, or `none` if the operator input stream runs
out. -/
def select_index (n : Nat) : List MenuInput → Option (Nat × List MenuInput)
  | [] => none
  | none :: rest => select_index n rest
  | some i :: rest =>
    if 1 ≤ i ∧ i ≤ n then some (i, rest) else select_index n rest

/-- The persona-selection phase of
`PersonaSystemUI.multi_persona_discussion`: three successive
`select_persona` calls over the factory's persona list, with no
duplicate check; returns the three chosen persona keys. -/
def multi_persona_discussion_select (personas : List String) :
    List MenuInput → Option (List String)
  | inputs =>
    match select_index personas.length inputs with
    | none => none
    | some (i1, rest1) =>
      match select_index personas.length rest1 with
      | none => none
      | some (i2, rest2) =>
        match select_index personas.length rest2 with
        | none => none
        | some (i3, _) =>
          match personas[i1 - 1]?, personas[i2 - 1]?, personas[i3 - 1]? with
          | some k1, some k2, some k3 => some [k1, k2, k3]
          | _, _, _ => none

/-- The persona keys registered by
`PersonaFactory._register_default_personas`, in registration order. -/
def defaultPersonaKeys : List String :=
  ["von_neumann", "edison", "steve_jobs", "einstein", "zhuge_liang",
   "sima_yi", "oda_nobunaga", "sakamoto_ryoma", "black_jack"]

end Base

namespace Enh

/-- The `ProblemType` enumeration of the extended revision: exactly the
eight members defined at lines 22-31 of the source. -/
inductive ProblemType where
  | STRATEGIC
  | OPERATIONAL
  | TECHNICAL
  | HUMAN
  | FINANCIAL
  | CREATIVE
  | ANALYTICAL
  | ETHICAL
  deriving DecidableEq, Repr

/-- `ProblemType.<member>.value` (the Japanese payload strings). -/
def ProblemType.value : ProblemType → String
  | .STRATEGIC => "戦略的問題"
  | .OPERATIONAL => "運用上の問題"
  | .TECHNICAL => "技術的問題"
  | .HUMAN => "人間関係の問題"
  | .FINANCIAL => "財務的問題"
  | .CREATIVE => "創造的課題"
  | .ANALYTICAL => "分析的課題"
  | .ETHICAL => "倫理的問題"

/-- Python attribute access `ProblemType.<name>`: resolves a member name
to the member, or `none` (an `AttributeError`) when the class defines no
such member. -/
def ProblemType.fromName : String → Option ProblemType
  | "STRATEGIC" => some .STRATEGIC
  | "OPERATIONAL" => some .OPERATIONAL
  | "TECHNICAL" => some .TECHNICAL
  | "HUMAN" => some .HUMAN
  | "FINANCIAL" => some .FINANCIAL
  | "CREATIVE" => some .CREATIVE
  | "ANALYTICAL" => some .ANALYTICAL
  | "ETHICAL" => some .ETHICAL
  | _ => none

/-- `ProblemSolvingFramework` of the extended revision. -/
structure ProblemSolvingFramework where
  name : String
  steps : List String
  key_questions : List String
  evaluation_criteria : List String
  tools : List String
  deriving DecidableEq, Repr

/-- `Solution` of the extended revision. -/
structure Solution where
  summary : String
  detailed_steps : List String
  expected_outcomes : List String
  risks : List String
  success_metrics : List String
  timeline : String
  resources_needed : List String
  deriving DecidableEq, Repr

/-- `PersonaConfig` of the extended revision. -/
structure PersonaConfig where
  name : String
  display_name : String
  base_traits : String
  category_prompts : List (String × String)
  problem_solving_framework : ProblemSolvingFramework
  problem_solving_style : String
  strengths : List ProblemType
  decision_making_process : String
  signature_techniques : List String
  deriving DecidableEq, Repr

/-- The registries of the extended revision's `PersonaFactory`. -/
structure PersonaFactory where
  personas : List (String × PersonaConfig)
  categories : List (String × String)
  deriving DecidableEq, Repr

/-- Python `enumerate`-style numbering, `f"{i+1}. {step}"`, starting at
index `i`. -/
def numberedFrom (i : Nat) : List String → List String
  | [] => []
  | s :: rest => (toString (i + 1) ++ ". " ++ s) :: numberedFrom (i + 1) rest

/-- The system message built by
`PersonaFactory.create_problem_solving_agent` (source lines 1423-1457),
transcribed line for line from the f-string; the three `chr(10).join`
blocks become `joinLines` of the numbered/dashed entries. -/
def problemSolvingMessage (p : PersonaConfig) : String :=
  p.base_traits
  ++ "\n\n【問題解決マスターとしての使命】\nあなたは" ++ p.display_name
  ++ "として、あらゆる問題を独自の手法で解決します。\n\n"
  ++ p.problem_solving_style
  ++ "\n\n【問題解決フレームワーク: " ++ p.problem_solving_framework.name
  ++ "】\nステップ:\n"
  ++ joinLines (numberedFrom 0 p.problem_solving_framework.steps)
  ++ "\n\n【重要な問い】\n"
  ++ joinLines (p.problem_solving_framework.key_questions.map (fun q => "- " ++ q))
  ++ "\n\n【評価基準】\n"
  ++ joinLines (p.problem_solving_framework.evaluation_criteria.map (fun c => "- " ++ c))
  ++ "\n\n【使用ツール】\n"
  ++ joinLines (p.problem_solving_framework.tools.map (fun t => "- " ++ t))
  ++ "\n\n【意思決定プロセス】\n"
  ++ p.decision_making_process
  ++ "\n\n【得意分野】\n"
  ++ joinComma (p.strengths.map ProblemType.value)
  ++ "\n\n【問題解決の心得】\n1. 相談者の問題を深く理解し、本質を見抜く\n2. "
  ++ p.display_name
  ++ "独自の視点と手法で分析\n3. 実行可能で具体的な解決策を提示\n4. リスクと対策も含めて包括的に回答\n5. 相談者を勇気づけ、行動を促す\n\n必ず"
  ++ p.display_name
  ++ "の人格、話し方、思考パターンを完全に再現して回答してください。\n"

/-- The tail of the problem-solving prompt after the tools section
(everything from the `【意思決定プロセス】` header on), used to state the
line decomposition of the prompt. -/
def promptTail (p : PersonaConfig) : String :=
  "【意思決定プロセス】\n"
  ++ p.decision_making_process
  ++ "\n\n【得意分野】\n"
  ++ joinComma (p.strengths.map ProblemType.value)
  ++ "\n\n【問題解決の心得】\n1. 相談者の問題を深く理解し、本質を見抜く\n2. "
  ++ p.display_name
  ++ "独自の視点と手法で分析\n3. 実行可能で具体的な解決策を提示\n4. リスクと対策も含めて包括的に回答\n5. 相談者を勇気づけ、行動を促す\n\n必ず"
  ++ p.display_name
  ++ "の人格、話し方、思考パターンを完全に再現して回答してください。\n"

/-- `PersonaFactory.create_problem_solving_agent`. -/
def create_problem_solving_agent (f : PersonaFactory) (persona_key : String) :
    Except String AgentSpec :=
  match alookup f.personas persona_key with
  | none => .error ("Unknown persona: " ++ persona_key)
  | some persona =>
    .ok ⟨problemSolverAgentName persona.name, problemSolvingMessage persona⟩

/-- The system message built by `PersonaFactory.create_specialized_agent`
(source lines 1479-1495), for a given category display label and the
already-resolved category prompt. -/
def specializedMessage (p : PersonaConfig)
    (category_display category_prompt : String) : String :=
  p.base_traits
  ++ "\n\n【" ++ category_display ++ "問題解決のスペシャリストとして】\n\n"
  ++ category_prompt
  ++ "\n\n"
  ++ p.problem_solving_style
  ++ "\n\n【問題解決アプローチ】\nこのカテゴリの問題には、"
  ++ p.problem_solving_framework.name
  ++ "を適用し、\n" ++ p.display_name
  ++ "ならではの独自視点で解決策を導きます。\n\n【意思決定基準】\n"
  ++ p.decision_making_process
  ++ "\n\n必ず" ++ p.display_name
  ++ "として、その人物特有の方法で問題を解決してください。\n"

/-- The `strengths=[ProblemType....]` argument of each `register_persona`
call in `PersonaFactory._register_enhanced_personas`, recorded as the
member names written in the source, in registration order.  Evaluating a
call requires resolving each name on the `ProblemType` class (Python
attribute access); the surrounding constructor arguments are string and
list literals whose evaluation cannot fail, so the factory constructor
succeeds exactly when every listed name resolves. -/
def enhancedStrengthNames : List (String × List String) :=
  [("von_neumann", ["ANALYTICAL", "STRATEGIC", "TECHNICAL", "FINANCIAL"]),
   ("edison", ["TECHNICAL", "OPERATIONAL", "CREATIVE", "FINANCIAL"]),
   ("steve_jobs", ["CREATIVE", "STRATEGIC", "HUMAN", "TECHNICAL"]),
   ("einstein", ["ANALYTICAL", "STRATEGIC", "CREATIVE", "ETHICAL"]),
   ("zhuge_liang", ["STRATEGIC", "HUMAN", "OPERATIONAL", "POLITICAL"]),
   ("sima_yi", ["STRATEGIC", "FINANCIAL", "OPERATIONAL", "ANALYTICAL"]),
   ("oda_nobunaga", ["STRATEGIC", "OPERATIONAL", "CREATIVE", "POLITICAL"]),
   ("sakamoto_ryoma", ["HUMAN", "STRATEGIC", "CREATIVE", "POLITICAL"]),
   ("black_jack", ["TECHNICAL", "ANALYTICAL", "CREATIVE", "ETHICAL"])]

/-- Evaluate a `strengths` list: resolve each member name left to right;
an unresolvable name raises `AttributeError`. -/
def resolveStrengths : List String → Except String (List ProblemType)
  | [] => .ok []
  | n :: rest =>
    match ProblemType.fromName n with
    | none =>
      .error ("type object 'ProblemType' has no attribute '" ++ n ++ "'")
    | some t => (resolveStrengths rest).map fun ts => t :: ts

/-- Run the nine `register_persona` calls of
`_register_enhanced_personas` in order, resolving each persona's
strengths names; the first unresolvable name aborts construction. -/
def resolveAllStrengths :
    List (String × List String) → Except String (List (String × List ProblemType))
  | [] => .ok []
  | (k, ns) :: rest => do
    let ts ← resolveStrengths ns
    let others ← resolveAllStrengths rest
    .ok ((k, ts) :: others)

/-- `PersonaFactory.__init__` of the extended revision (the part that
decides whether construction succeeds): `_register_enhanced_personas`
runs before `_register_default_categories` and before any lookup or
session, so its outcome is the outcome of every
`EnhancedPersonaSystemUI()` entry point. -/
def enhancedFactoryInit : Except String (List (String × List ProblemType)) :=
  resolveAllStrengths enhancedStrengthNames

/-- One participant pick of `EnhancedPersonaSystemUI.problem_solving_battle`:
re-prompt while the input is non-numeric, out of range, or names a
persona already selected; `personas` are the factory's persona keys in
insertion order (within one factory the dict key equals the config's
`name` field, so membership of the config in `selected_personas` is
membership of its key). -/
def battle_select_one (personas selected : List String) :
    List MenuInput → Option (String × List MenuInput)
  | [] => none
  | none :: rest => battle_select_one personas selected rest
  | some i :: rest =>
    if 1 ≤ i ∧ i ≤ personas.length then
      match personas[i - 1]? with
      | some k =>
        if k ∈ selected then battle_select_one personas selected rest
        else some (k, rest)
      | none => none
    else battle_select_one personas selected rest

/-- The participant-selection phase of `problem_solving_battle`: three
successive picks, each excluding the personas already selected. -/
def battle_select3 (personas : List String) (inputs : List MenuInput) :
    Option (List String) :=
  match battle_select_one personas [] inputs with
  | none => none
  | some (k1, r1) =>
    match battle_select_one personas [k1] r1 with
    | none => none
    | some (k2, r2) =>
      match battle_select_one personas [k1, k2] r2 with
      | none => none
      | some (k3, _) => some [k1, k2, k3]

/-- `PersonaFactory.register_persona` of the extended revision. -/
def register_persona (f : PersonaFactory) (persona_config : PersonaConfig) :
    PersonaFactory :=
  { f with personas := dinsert f.personas persona_config.name persona_config }

/-- `PersonaFactory.register_category` of the extended revision. -/
def register_category (f : PersonaFactory) (key display_name : String) :
    PersonaFactory :=
  { f with categories := dinsert f.categories key display_name }

/-- `PersonaFactory.create_specialized_agent`: persona check first, then
category check, then the category prompt with its fallback sentence. -/
def create_specialized_agent (f : PersonaFactory)
    (persona_key category_key : String) : Except String AgentSpec :=
  match alookup f.personas persona_key with
  | none => .error ("Unknown persona: " ++ persona_key)
  | some persona =>
    match alookup f.categories category_key with
    | none => .error ("Unknown category: " ++ category_key)
    | some category_display =>
      let category_prompt :=
        (alookup persona.category_prompts category_key).getD
          (category_display ++ "の問題を専門的に解決してください。")
      .ok ⟨specialistAgentName persona.name category_key,
        specializedMessage persona category_display category_prompt⟩

/-- The analysis record of `ProblemSolvingSession.analyze_problem`. -/
structure Analysis where
  original_problem : String
  essence : String
  root_cause : String
  stakeholders : List String
  constraints : List String
  desired_outcome : String
  deriving DecidableEq, Repr

/-- System message of the `problem_analyzer` agent (source lines
1528-1539). -/
def analyzerMessage (p : PersonaConfig) : String :=
  "\nあなたは" ++ p.display_name
  ++ "です。\n提示された問題を以下の観点から分析してください：\n\n1. 問題の本質は何か\n2. 表面的な症状と根本原因\n3. 関係者と利害関係\n4. 制約条件\n5. 望ましい結果\n\n"
  ++ p.display_name
  ++ "の視点から分析し、JSON形式で出力してください。\n"

/-- `ProblemSolvingSession.analyze_problem`: one `respond` call against
the `problem_analyzer` agent; the returned record is hard-coded except
for the echoed `original_problem` — the collaborator's response is
received and discarded. -/
def analyze_problem (p : PersonaConfig) (problem : String)
    (_response : String) : Analysis × RespondCall :=
  ({ original_problem := problem, essence := "問題の本質",
     root_cause := "根本原因", stakeholders := ["関係者1", "関係者2"],
     constraints := ["制約1", "制約2"], desired_outcome := "望ましい結果" },
   { agentName := "problem_analyzer", systemMessage := analyzerMessage p,
     task := "次の問題を分析してください: " ++ problem })

/-- System message of the `solution_generator` agent (source lines
1561-1576). -/
def generatorMessage (p : PersonaConfig) : String :=
  "\nあなたは" ++ p.display_name
  ++ "です。\n" ++ p.problem_solving_framework.name
  ++ "を使用して、\n問題に対する解決策を生成してください。\n\n必ず以下を含めること：\n- 要約\n- 詳細な実行ステップ\n- 期待される成果\n- リスク\n- 成功指標\n- タイムライン\n- 必要なリソース\n\n"
  ++ p.display_name
  ++ "らしい独創的な解決策を提示してください。\n"

/-- The task string handed to the `solution_generator` agent, built from
the preceding analysis (source lines 1579-1584). -/
def problemDescription (a : Analysis) : String :=
  "\n問題の本質: " ++ a.essence
  ++ "\n根本原因: " ++ a.root_cause
  ++ "\n制約条件: " ++ joinComma a.constraints
  ++ "\n望ましい結果: " ++ a.desired_outcome ++ "\n"

/-- The hard-coded one-element solution list returned by
`generate_solutions` (source lines 1589-1599). -/
def generatedSolutions : List Solution :=
  [⟨"解決策の要約", ["ステップ1", "ステップ2", "ステップ3"],
    ["成果1", "成果2"], ["リスク1", "リスク2"], ["指標1", "指標2"],
    "3ヶ月", ["リソース1", "リソース2"]⟩]

/-- `ProblemSolvingSession.generate_solutions`: one `respond` call
against the `solution_generator` agent; the returned list is the
hard-coded constant — the response is discarded. -/
def generate_solutions (p : PersonaConfig) (analysis : Analysis)
    (_response : String) : List Solution × RespondCall :=
  (generatedSolutions,
   { agentName := "solution_generator", systemMessage := generatorMessage p,
     task := problemDescription analysis })

/-- System message of the `solution_evaluator` agent (source lines
1608-1616). -/
def evaluatorMessage (p : PersonaConfig) : String :=
  "\nあなたは" ++ p.display_name
  ++ "です。\n提示された解決策を以下の基準で評価してください：\n\n"
  ++ joinLines (p.problem_solving_framework.evaluation_criteria.map
      (fun c => "- " ++ c))
  ++ "\n\n"
  ++ p.display_name
  ++ "の価値観と判断基準に基づいて、\n最も適切な解決策を選び、その理由を説明してください。\n"

/-- The numbered `f"解決策{i+1}: {s.summary}"` labels of the evaluator
task, starting at index `i`. -/
def solutionLabelsFrom (i : Nat) : List Solution → List String
  | [] => []
  | s :: rest =>
    ("解決策" ++ toString (i + 1) ++ ": " ++ s.summary) ::
      solutionLabelsFrom (i + 1) rest

/-- `ProblemSolvingSession.evaluate_solutions`: one `respond` call
against the `solution_evaluator` agent; returns `solutions[0]` (an
`IndexError` on an empty list is modelled by `none`) — the response is
discarded. -/
def evaluate_solutions (p : PersonaConfig) (solutions : List Solution)
    (_response : String) : Option Solution × RespondCall :=
  (solutions[0]?,
   { agentName := "solution_evaluator", systemMessage := evaluatorMessage p,
     task := "次の解決策を評価してください:\n"
       ++ joinPara (solutionLabelsFrom 0 solutions) })

/-- System message of the `action_planner` agent (source lines
1631-1644). -/
def plannerMessage (p : PersonaConfig) : String :=
  "\nあなたは" ++ p.display_name
  ++ "です。\n選択された解決策を実行するための詳細な行動計画を作成してください。\n\n以下を含めること：\n1. 即座に実行すべきこと（24時間以内）\n2. 短期的アクション（1週間以内）\n3. 中期的アクション（1ヶ月以内）\n4. 長期的アクション（3ヶ月以内）\n5. 成功の判定基準\n6. 定期的なレビューポイント\n\n"
  ++ p.display_name
  ++ "の実行スタイルを反映させてください。\n"

/-- The task string handed to the `action_planner` agent, built from the
selected solution (source lines 1647-1652). -/
def solutionText (s : Solution) : String :=
  "\n解決策: " ++ s.summary
  ++ "\nステップ: " ++ joinComma s.detailed_steps
  ++ "\n必要リソース: " ++ joinComma s.resources_needed
  ++ "\nタイムライン: " ++ s.timeline ++ "\n"

/-- `ProblemSolvingSession.create_action_plan`: one `respond` call
against the `action_planner` agent; returns the response content. -/
def create_action_plan (p : PersonaConfig) (solution : Solution)
    (response : String) : String × RespondCall :=
  (response,
   { agentName := "action_planner", systemMessage := plannerMessage p,
     task := solutionText solution })

/-- System message of a per-persona battle agent (source lines
1711-1721). -/
def battlerMessage (p : PersonaConfig) : String :=
  "\nあなたは" ++ p.display_name
  ++ "です。\n\n提示された問題に対して、" ++ p.problem_solving_framework.name
  ++ "を使用して\n最高の解決策を提示してください。\n\n他の偉人たちも同じ問題に取り組んでいます。\nあなたの独自性と優位性を示し、なぜあなたの解決策が最も優れているかを説明してください。\n\n"
  ++ p.problem_solving_style
  ++ "\n"

/-- System message of the fixed `judge` agent (source lines 1733-1745). -/
def judgeMessage : String :=
  "\nあなたは公平な審査員です。\n各偉人の解決策を以下の観点から評価してください：\n\n1. 独創性\n2. 実現可能性\n3. 効果の大きさ\n4. リスクの低さ\n5. 持続可能性\n\n最も優れた解決策を選び、その理由を説明してください。\nまた、各解決策の長所と短所も指摘してください。\n"

/-- The per-persona loop of `ProblemSolvingBattle.battle`: one
`respond` call per persona in selection order, accumulating the
`solutions` dict keyed by `persona.display_name` (so a later persona
with the same display name overwrites the earlier entry, as a Python
dict assignment does); `i` numbers the oracle responses. -/
def battleLoop : List PersonaConfig → String → (Nat → String) → Nat →
    List (String × String) → List (String × String) × List RespondCall
  | [], _, _, _, sols => (sols, [])
  | p :: rest, problem, oracle, i, sols =>
    let call : RespondCall :=
      ⟨battlerAgentName p.name, battlerMessage p, problem⟩
    let sols' := dinsert sols p.display_name (oracle i)
    let next := battleLoop rest problem oracle (i + 1) sols'
    (next.1, call :: next.2)

/-- `"\n\n".join([f"{name}:\n{sol}" for name, sol in solutions.items()])`
(source line 1748). -/
def solutionsJoined (sols : List (String × String)) : String :=
  joinPara (sols.map (fun nv => nv.1 ++ ":\n" ++ nv.2))

/-- The record returned by `ProblemSolvingBattle.battle`. -/
structure BattleResult where
  problem : String
  solutions : List (String × String)
  judgment : String
  deriving DecidableEq, Repr

/-- `ProblemSolvingBattle.battle`: the per-persona solution calls in
selection order, then one `judge` call whose task is the concatenation
of the collected solutions; `oracle i` is the response to the `i`-th
call, so the judgment is the response to call number
`personas.length`. -/
def battle (personas : List PersonaConfig) (problem : String)
    (oracle : Nat → String) : BattleResult × List RespondCall :=
  let loop := battleLoop personas problem oracle 0 []
  let judgeCall : RespondCall :=
    ⟨"judge", judgeMessage,
     "次の解決策を評価してください:\n\n" ++ solutionsJoined loop.1⟩
  (⟨problem, loop.1, oracle personas.length⟩, loop.2 ++ [judgeCall])

/-- The record returned by `ProblemSolvingSession.solve_problem`. -/
structure SolveResult where
  problem : String
  analysis : Analysis
  solution : Solution
  action_plan : String
  deriving DecidableEq, Repr

/-- `ProblemSolvingSession.solve_problem`: the four stages run strictly
in order, each passing its output to the next; `oracle i` is the
collaborator's response to the `i`-th `respond` call.  The four calls
are returned in issue order. -/
def solve_problem (p : PersonaConfig) (problem : String)
    (oracle : Nat → String) : Option (SolveResult × List RespondCall) :=
  let a := analyze_problem p problem (oracle 0)
  let g := generate_solutions p a.1 (oracle 1)
  let e := evaluate_solutions p g.1 (oracle 2)
  match e.1 with
  | none => none
  | some best_solution =>
    let c := create_action_plan p best_solution (oracle 3)
    some (⟨problem, a.1, best_solution, c.1⟩, [a.2, g.2, e.2, c.2])

end Enh

/-!
Heap model for the `personas` / `categories` accessor properties.

Both revisions implement the accessors as `return self._personas.copy()`
(`self._categories.copy()`).  Whether a mutation of the returned dict
can reach the factory's internal registry is a question about Python
object identity, so the embedding makes the object store explicit: a
`Heap` maps references to dict contents, the factory's internal registry
lives at one reference, and the accessor allocates a fresh reference
holding a copy of the contents (`dict.copy()`).  Mutations address a
reference; the claim is that mutations through the returned reference
leave the contents at the internal reference untouched.
-/

/-- An object store of Python dict objects with string keys and
`α`-typed values: `mem r` is the contents of the dict at reference `r`;
references `≥ nextRef` are unallocated. -/
structure Heap (α : Type) where
  nextRef : Nat
  mem : Nat → List (String × α)

/-- The `personas` / `categories` property: allocate a fresh reference
holding a copy of the internal registry's contents and return it
(`self._personas.copy()`). -/
def copyAccessor {α : Type} (h : Heap α) (internalRef : Nat) :
    Nat × Heap α :=
  (h.nextRef,
   ⟨h.nextRef + 1,
    fun r => if r = h.nextRef then h.mem internalRef else h.mem r⟩)

/-- A dict mutation the caller can perform on a returned mapping:
add/replace an entry, or delete a key. -/
inductive DictOp (α : Type) where
  | set (k : String) (v : α)
  | del (k : String)

/-- Apply one mutation to dict contents. -/
def applyOp {α : Type} (op : DictOp α) (d : List (String × α)) :
    List (String × α) :=
  match op with
  | .set k v => dinsert d k v
  | .del k => d.filter (fun kv => kv.1 ≠ k)

/-- Mutate the dict object at reference `r`. -/
def mutateAt {α : Type} (h : Heap α) (r : Nat) (op : DictOp α) : Heap α :=
  ⟨h.nextRef, fun q => if q = r then applyOp op (h.mem r) else h.mem q⟩

/-- Apply a whole sequence of mutations at reference `r`. -/
def mutateAll {α : Type} (h : Heap α) (r : Nat) : List (DictOp α) → Heap α
  | [] => h
  | op :: rest => mutateAll (mutateAt h r op) r rest

/-!
Textual re-parsing of the problem-solving prompt.

The round-trip property of §8 of the specification asks that a textual
re-parse of the prompt rendered by `create_problem_solving_agent`
recover the framework's `steps`, `key_questions`,
`evaluation_criteria` and `tools` lists verbatim.  `parseFramework`
below is such a re-parser: it splits the prompt into lines, locates the
`ステップ:` marker, reads the numbered step lines up to the next blank
line, then reads the three dashed sections in order.
-/

/-- Split a character list at every occurrence of `c`. -/
def splitCh (c : Char) : List Char → List (List Char)
  | [] => [[]]
  | x :: xs =>
    match splitCh c xs with
    | [] => [[]]
    | l :: ls => if x = c then [] :: l :: ls else (x :: l) :: ls

/-- Join chunks with the separator `c` (left inverse of `splitCh`). -/
def joinCh (c : Char) : List (List Char) → List Char
  | [] => []
  | [l] => l
  | l :: l' :: ls => l ++ c :: joinCh c (l' :: ls)

/-- Skip lines until the exact marker line, returning what follows. -/
def findMark (mark : List Char) : List (List Char) → Option (List (List Char))
  | [] => none
  | l :: rest => if l = mark then some rest else findMark mark rest

/-- Collect the lines up to (excluding) the first blank line. -/
def collectUntilBlank :
    List (List Char) → Option (List (List Char) × List (List Char))
  | [] => none
  | l :: rest =>
    if l = [] then some ([], rest)
    else
      match collectUntilBlank rest with
      | none => none
      | some (xs, r) => some (l :: xs, r)

/-- Require the next line to be the given header, returning the rest. -/
def expectLine (mark : List Char) :
    List (List Char) → Option (List (List Char))
  | [] => none
  | l :: rest => if l = mark then some rest else none

/-- Strip the `f"{i+1}. "` numbering prefix from each collected step
line (the `i`-th collected line carries number `i+1`). -/
def stripNumFrom (i : Nat) : List (List Char) → List (List Char)
  | [] => []
  | l :: ls =>
    l.drop ((toString (i + 1)).data.length + 2) :: stripNumFrom (i + 1) ls

/-- Strip the `"- "` prefix from each collected dashed line. -/
def stripDash (ls : List (List Char)) : List (List Char) :=
  ls.map (List.drop 2)

/-- Parse the line decomposition of a rendered problem-solving prompt:
the numbered steps after the `ステップ:` marker, then the dashed
`key_questions`, `evaluation_criteria` and `tools` sections. -/
def parseFrameworkLines (ls : List (List Char)) :
    Option (List String × List String × List String × List String) := do
  let r1 ← findMark ("ステップ:" : String).data ls
  let (stepLines, r2) ← collectUntilBlank r1
  let r3 ← expectLine ("【重要な問い】" : String).data r2
  let (qLines, r4) ← collectUntilBlank r3
  let r5 ← expectLine ("【評価基準】" : String).data r4
  let (cLines, r6) ← collectUntilBlank r5
  let r7 ← expectLine ("【使用ツール】" : String).data r6
  let (tLines, _) ← collectUntilBlank r7
  some ((stripNumFrom 0 stepLines).map (fun l => ⟨l⟩),
        (stripDash qLines).map (fun l => ⟨l⟩),
        (stripDash cLines).map (fun l => ⟨l⟩),
        (stripDash tLines).map (fun l => ⟨l⟩))

/-- The textual re-parser applied to a prompt string. -/
def parseFramework (s : String) :
    Option (List String × List String × List String × List String) :=
  parseFrameworkLines (splitCh '\n' s.data)

end PersonaSim

namespace PersonaSim

namespace Base

/-- A two-persona, one-category factory used to instantiate the
universally quantified theorems at concrete inputs. -/
def demoFactory : PersonaFactory :=
  register_category
    (register_persona
      (register_persona ⟨[], []⟩
        ⟨"alpha", "Alpha", "alpha traits", []⟩)
      ⟨"beta", "Beta", "beta traits", [("x", "beta on x")]⟩)
    "x" "X"

end Base

namespace Enh

/-- A small problem-solving framework with every field populated, used
to instantiate universally quantified theorems at concrete inputs. -/
def demoFramework : ProblemSolvingFramework :=
  ⟨"F", ["s1", "s2"], ["q1"], ["c1"], ["t1"]⟩

/-- A small extended-revision persona with every field populated. -/
def demoPersona : PersonaConfig :=
  ⟨"alpha", "Alpha", "base", [("x", "alpha on x")], demoFramework,
   "style", [.STRATEGIC, .CREATIVE], "process", ["tech"]⟩

/-- A one-persona, one-category extended factory built through the
registration operations. -/
def demoFactory : PersonaFactory :=
  register_category (register_persona ⟨[], []⟩ demoPersona) "x" "X"

/-- A persona named `a` whose display name collides with `ceB`. -/
def ceA : PersonaConfig :=
  ⟨"a", "X", "ta", [], demoFramework, "sa", [], "da", []⟩

/-- A persona named `b` whose display name collides with `ceA`. -/
def ceB : PersonaConfig :=
  ⟨"b", "X", "tb", [], demoFramework, "sb", [], "db", []⟩

/-- A persona named `c` with its own display name. -/
def ceC : PersonaConfig :=
  ⟨"c", "Y", "tc", [], demoFramework, "sc", [], "dc", []⟩

/-- Three personas with pairwise-distinct display names. -/
def wA : PersonaConfig :=
  ⟨"a", "A", "ta", [], demoFramework, "sa", [], "da", []⟩

/-- Second of the three distinct-display witness personas. -/
def wB : PersonaConfig :=
  ⟨"b", "B", "tb", [], demoFramework, "sb", [], "db", []⟩

/-- Third of the three distinct-display witness personas. -/
def wC : PersonaConfig :=
  ⟨"c", "C", "tc", [], demoFramework, "sc", [], "dc", []⟩

/-- A concrete collaborator oracle: the `i`-th call answers `s{i}`. -/
def sampleOracle (i : Nat) : String := "s" ++ toString i

/-- A fully-populated persona whose two steps are `a` and `b`. -/
def c8A : PersonaConfig :=
  ⟨"a", "D", "B", [], ⟨"N", ["a", "b"], ["q"], ["c"], ["t"]⟩,
   "S", [], "P", []⟩

/-- A fully-populated persona with the single step `a\n2. b`, rendering
to the same prompt as `c8A`. -/
def c8B : PersonaConfig :=
  ⟨"a", "D", "B", [], ⟨"N", ["a\n2. b"], ["q"], ["c"], ["t"]⟩,
   "S", [], "P", []⟩

end Enh

/-- C2: for every registered persona `P` and registered category `C`,
`create_agent` succeeds and its system message is exactly
`P.base_traits ++ "\n\n" ++` (the persona's category prompt when present,
otherwise the fallback sentence generated from `C`'s display label). -/
theorem C2_compose_category_prompt
    (f : Base.PersonaFactory) (pk ck : String)
    (p : Base.PersonaConfig) (disp : String)
    (hp : alookup f.personas pk = some p)
    (hc : alookup f.categories ck = some disp) :
    Base.create_agent f pk ck =
      .ok ⟨p.name ++ "_" ++ ck,
        p.base_traits ++ "\n\n" ++
          ((alookup p.category_prompts ck).getD
            (disp ++ "について専門的に回答してください。"))⟩ := by
  unfold Base.create_agent
  rw [hp, hc]
  rfl

/-- Witness for C2: in the demo factory, persona `alpha` has no entry
for category `x`, so the composed message uses the fallback sentence. -/
theorem C2_compose_category_prompt_witness :
    Base.create_agent Base.demoFactory "alpha" "x" =
      .ok ⟨"alpha_x", "alpha traits" ++ "\n\n" ++
        "Xについて専門的に回答してください。"⟩ := by
  have h := C2_compose_category_prompt Base.demoFactory "alpha" "x"
    ⟨"alpha", "Alpha", "alpha traits", []⟩ "X" (by decide) (by decide)
  rw [h]; rfl

/-- C1: constructing the extended revision's default factory never
succeeds — the `ProblemType` enumeration has no member `POLITICAL`, yet
the registrations of `zhuge_liang`, `oda_nobunaga` and `sakamoto_ryoma`
each list it among their strengths, so `PersonaFactory.__init__`
raises an `AttributeError` (first at `zhuge_liang`) before any persona
lookup or session can occur. -/
theorem C1_enhanced_factory_never_constructs :
    Enh.enhancedFactoryInit =
      .error ("type object 'ProblemType' has no attribute '" ++ "POLITICAL" ++ "'") ∧
    Enh.ProblemType.fromName "POLITICAL" = none ∧
    alookup Enh.enhancedStrengthNames "zhuge_liang" =
      some ["STRATEGIC", "HUMAN", "OPERATIONAL", "POLITICAL"] ∧
    alookup Enh.enhancedStrengthNames "oda_nobunaga" =
      some ["STRATEGIC", "OPERATIONAL", "CREATIVE", "POLITICAL"] ∧
    alookup Enh.enhancedStrengthNames "sakamoto_ryoma" =
      some ["HUMAN", "STRATEGIC", "CREATIVE", "POLITICAL"] := by
  refine ⟨rfl, rfl, by decide, by decide, by decide⟩

/-- A pick returned by `battle_select_one` is never a persona that was
already selected: the selection loop re-prompts on such an input. -/
theorem battle_pick_fresh (personas : List String) :
    ∀ (inputs : List MenuInput) (selected : List String) (k : String)
      (rest : List MenuInput),
      Enh.battle_select_one personas selected inputs = some (k, rest) →
      k ∉ selected := by
  intro inputs
  induction inputs with
  | nil =>
    intro selected k rest h
    simp [Enh.battle_select_one] at h
  | cons x xs ih =>
    intro selected k rest h
    cases x with
    | none =>
      rw [show Enh.battle_select_one personas selected (none :: xs) =
            Enh.battle_select_one personas selected xs from rfl] at h
      exact ih selected k rest h
    | some i =>
      rw [show Enh.battle_select_one personas selected (some i :: xs) =
            (if 1 ≤ i ∧ i ≤ personas.length then
              match personas[i - 1]? with
              | some k' =>
                if k' ∈ selected then Enh.battle_select_one personas selected xs
                else some (k', xs)
              | none => none
            else Enh.battle_select_one personas selected xs) from rfl] at h
      split at h
      · split at h
        · next k' _ =>
          split at h
          · exact ih selected k rest h
          · next hmem =>
            obtain ⟨hk, _⟩ := Prod.mk.injEq .. ▸ (Option.some.inj h)
            exact hk ▸ hmem
        · exact absurd h (by simp)
      · exact ih selected k rest h

/-- C4 counterexample: in the base revision's
`multi_persona_discussion`, the operator inputs `1, 1, 1` select the
same persona three times — there is no duplicate check in that flow, so
the three agents built for the discussion are not pairwise distinct. -/
theorem C4_counterexample :
    Base.multi_persona_discussion_select Base.defaultPersonaKeys
        [some 1, some 1, some 1] =
      some ["von_neumann", "von_neumann", "von_neumann"] ∧
    ¬ (["von_neumann", "von_neumann", "von_neumann"] : List String).Nodup := by
  refine ⟨by decide, by decide⟩

/-- C4 (amended): the duplicate-selection re-prompt exists only in the
extended revision's `problem_solving_battle`: whenever its selection
phase completes, the three selected personas are pairwise distinct.  The
base revision's `multi_persona_discussion` performs no such check. -/
theorem C4_battle_selection_distinct
    (personas : List String) (inputs : List MenuInput) (ks : List String)
    (h : Enh.battle_select3 personas inputs = some ks) : ks.Nodup := by
  unfold Enh.battle_select3 at h
  split at h
  · exact absurd h (by simp)
  · next k1 r1 h1 =>
    split at h
    · exact absurd h (by simp)
    · next k2 r2 h2 =>
      split at h
      · exact absurd h (by simp)
      · next k3 r3 h3 =>
        obtain rfl := Option.some.inj h
        have hk2 := battle_pick_fresh personas r1 [k1] k2 r2 h2
        have hk3 := battle_pick_fresh personas r2 [k1, k2] k3 r3 h3
        have h21 : k2 ≠ k1 := by simpa using hk2
        have h3 : k3 ≠ k1 ∧ k3 ≠ k2 := by simpa [not_or] using hk3
        simp only [List.nodup_cons, List.mem_cons, List.not_mem_nil, or_false,
          List.mem_singleton, List.nodup_nil, and_true, not_or]
        exact ⟨⟨Ne.symm h21, Ne.symm h3.1⟩, Ne.symm h3.2, not_false⟩

/-- Witness for the amended C4: the operator picks persona 5
(`zhuge_liang`) twice; the second pick is rejected and re-prompted, and
the completed selection is duplicate-free. -/
theorem C4_battle_selection_distinct_witness :
    Enh.battle_select3 Base.defaultPersonaKeys
        [some 5, some 5, some 7, some 8] =
      some ["zhuge_liang", "oda_nobunaga", "sakamoto_ryoma"] ∧
    (["zhuge_liang", "oda_nobunaga", "sakamoto_ryoma"] : List String).Nodup :=
  ⟨by decide,
   C4_battle_selection_distinct Base.defaultPersonaKeys
     [some 5, some 5, some 7, some 8]
     ["zhuge_liang", "oda_nobunaga", "sakamoto_ryoma"] (by decide)⟩

/-- C3 counterexample: with both keys unregistered (`"ghost"` is no
persona, `"void"` is no category of the demo factory), `create_agent`
raises `Unknown persona`, not `Unknown category` — so the failure mode
for an absent category key is *not* independent of whether the persona
key is valid, contrary to the claim. -/
theorem C3_counterexample :
    Base.create_agent Base.demoFactory "ghost" "void" =
      .error ("Unknown persona: " ++ "ghost") ∧
    (Except.error ("Unknown persona: " ++ "ghost") : Except String AgentSpec) ≠
      .error ("Unknown category: " ++ "void") := by
  refine ⟨rfl, ?_⟩
  intro h
  injection h with h'
  exact absurd h' (by decide)

/-- C3 (amended): `create_agent` and `create_specialized_agent` fail
with `Unknown persona` for every unregistered persona key, independent
of the category key; they fail with `Unknown category` for every
unregistered category key *provided the persona key is registered* —
the persona check runs first and takes precedence. -/
theorem C3_unknown_key_errors :
    (∀ (f : Base.PersonaFactory) (pk ck : String),
      alookup f.personas pk = none →
      Base.create_agent f pk ck = .error ("Unknown persona: " ++ pk)) ∧
    (∀ (f : Base.PersonaFactory) (pk ck : String) (p : Base.PersonaConfig),
      alookup f.personas pk = some p →
      alookup f.categories ck = none →
      Base.create_agent f pk ck = .error ("Unknown category: " ++ ck)) ∧
    (∀ (f : Enh.PersonaFactory) (pk ck : String),
      alookup f.personas pk = none →
      Enh.create_specialized_agent f pk ck = .error ("Unknown persona: " ++ pk)) ∧
    (∀ (f : Enh.PersonaFactory) (pk ck : String) (p : Enh.PersonaConfig),
      alookup f.personas pk = some p →
      alookup f.categories ck = none →
      Enh.create_specialized_agent f pk ck = .error ("Unknown category: " ++ ck)) := by
  refine ⟨?_, ?_, ?_, ?_⟩
  · intro f pk ck hp
    unfold Base.create_agent
    rw [hp]
  · intro f pk ck p hp hc
    unfold Base.create_agent
    rw [hp, hc]
  · intro f pk ck hp
    unfold Enh.create_specialized_agent
    rw [hp]
  · intro f pk ck p hp hc
    unfold Enh.create_specialized_agent
    rw [hp, hc]

/-- Witness for the amended C3, at the two demo factories. -/
theorem C3_unknown_key_errors_witness :
    Base.create_agent Base.demoFactory "ghost" "x" =
      .error ("Unknown persona: " ++ "ghost") ∧
    Base.create_agent Base.demoFactory "alpha" "void" =
      .error ("Unknown category: " ++ "void") ∧
    Enh.create_specialized_agent Enh.demoFactory "ghost" "x" =
      .error ("Unknown persona: " ++ "ghost") ∧
    Enh.create_specialized_agent Enh.demoFactory "alpha" "void" =
      .error ("Unknown category: " ++ "void") :=
  ⟨C3_unknown_key_errors.1 Base.demoFactory "ghost" "x" (by decide),
   C3_unknown_key_errors.2.1 Base.demoFactory "alpha" "void"
     ⟨"alpha", "Alpha", "alpha traits", []⟩ (by decide) (by decide),
   C3_unknown_key_errors.2.2.1 Enh.demoFactory "ghost" "x" (by decide),
   C3_unknown_key_errors.2.2.2 Enh.demoFactory "alpha" "void"
     Enh.demoPersona (by decide) (by decide)⟩

/-- C7 counterexample: the naming templates are not collision-free for
every persona/category key pair — with category key `"problem_solver"`,
the category-mode name equals the problem-solving name. -/
theorem C7_counterexample :
    categoryAgentName "x" "problem_solver" = problemSolverAgentName "x" := by
  decide

/-- C7 (amended): for every persona key and every category key other
than the two reserved suffix words `"problem_solver"` and `"battler"`
(in particular for every category registered by either revision), the
four agent-name templates are pairwise distinct. -/
theorem C7_agent_names_distinct (p c : String)
    (h1 : c ≠ "problem_solver") (h2 : c ≠ "battler") :
    categoryAgentName p c ≠ problemSolverAgentName p ∧
    categoryAgentName p c ≠ specialistAgentName p c ∧
    categoryAgentName p c ≠ battlerAgentName p ∧
    problemSolverAgentName p ≠ specialistAgentName p c ∧
    problemSolverAgentName p ≠ battlerAgentName p ∧
    specialistAgentName p c ≠ battlerAgentName p := by
  have lu : ("_" : String).length = 1 := rfl
  have lsp : ("_specialist" : String).length = 11 := rfl
  have lps : ("_problem_solver" : String).length = 15 := rfl
  have lbt : ("_battler" : String).length = 8 := rfl
  refine ⟨?_, ?_, ?_, ?_, ?_, ?_⟩
  · intro h
    apply h1
    have hd := congrArg String.data h
    simp only [categoryAgentName, problemSolverAgentName,
      String.data_append] at hd
    rw [List.append_assoc] at hd
    have hd' := List.append_cancel_left hd
    simp only [List.singleton_append] at hd'
    injection hd' with _ htail
    apply String.ext
    rw [htail]
  · intro h
    have hl := congrArg String.length h
    simp only [categoryAgentName, specialistAgentName,
      String.length_append, lu, lsp] at hl
    omega
  · intro h
    apply h2
    have hd := congrArg String.data h
    simp only [categoryAgentName, battlerAgentName, String.data_append] at hd
    rw [List.append_assoc] at hd
    have hd' := List.append_cancel_left hd
    simp only [List.singleton_append] at hd'
    injection hd' with _ htail
    apply String.ext
    rw [htail]
  · intro h
    have hd := congrArg String.data h
    simp only [problemSolverAgentName, specialistAgentName,
      String.data_append] at hd
    rw [List.append_assoc, List.append_assoc] at hd
    have hd' := List.append_cancel_left hd
    simp only [List.singleton_append] at hd'
    injection hd' with _ htail
    have hsplit : (['p', 'r', 'o', 'b', 'l', 'e', 'm', '_', 's', 'o', 'l',
        'v', 'e', 'r'] : List Char) =
        ['p', 'r', 'o'] ++ ['b', 'l', 'e', 'm', '_', 's', 'o', 'l', 'v',
          'e', 'r'] := rfl
    rw [hsplit] at htail
    have := (List.append_inj' htail (by decide)).2
    exact absurd this (by decide)
  · intro h
    have hd := congrArg String.data h
    simp only [problemSolverAgentName, battlerAgentName,
      String.data_append] at hd
    have hd' := List.append_cancel_left hd
    exact absurd hd' (by decide)
  · intro h
    have hl := congrArg String.length h
    simp only [specialistAgentName, battlerAgentName,
      String.length_append, lu, lsp, lbt] at hl
    omega

/-- Witness for the amended C7 at persona key `"p"` and category key
`"future"`. -/
theorem C7_agent_names_distinct_witness :
    categoryAgentName "p" "future" ≠ problemSolverAgentName "p" ∧
    categoryAgentName "p" "future" ≠ specialistAgentName "p" "future" ∧
    categoryAgentName "p" "future" ≠ battlerAgentName "p" ∧
    problemSolverAgentName "p" ≠ specialistAgentName "p" "future" ∧
    problemSolverAgentName "p" ≠ battlerAgentName "p" ∧
    specialistAgentName "p" "future" ≠ battlerAgentName "p" :=
  C7_agent_names_distinct "p" "future" (by decide) (by decide)

/-- The persona's display name is embedded in the `problem_analyzer`
system message. -/
theorem display_in_analyzerMessage (p : Enh.PersonaConfig) :
    p.display_name.data <:+: (Enh.analyzerMessage p).data := by
  refine ⟨("\nあなたは" : String).data,
    (("です。\n提示された問題を以下の観点から分析してください：\n\n1. 問題の本質は何か\n2. 表面的な症状と根本原因\n3. 関係者と利害関係\n4. 制約条件\n5. 望ましい結果\n\n" : String)
      ++ p.display_name
      ++ ("の視点から分析し、JSON形式で出力してください。\n" : String)).data, ?_⟩
  simp [Enh.analyzerMessage, String.data_append]

/-- The persona's display name is embedded in the `solution_generator`
system message. -/
theorem display_in_generatorMessage (p : Enh.PersonaConfig) :
    p.display_name.data <:+: (Enh.generatorMessage p).data := by
  refine ⟨("\nあなたは" : String).data,
    (("です。\n" : String) ++ p.problem_solving_framework.name
      ++ ("を使用して、\n問題に対する解決策を生成してください。\n\n必ず以下を含めること：\n- 要約\n- 詳細な実行ステップ\n- 期待される成果\n- リスク\n- 成功指標\n- タイムライン\n- 必要なリソース\n\n" : String)
      ++ p.display_name
      ++ ("らしい独創的な解決策を提示してください。\n" : String)).data, ?_⟩
  simp [Enh.generatorMessage, String.data_append]

/-- The persona's display name is embedded in the `solution_evaluator`
system message. -/
theorem display_in_evaluatorMessage (p : Enh.PersonaConfig) :
    p.display_name.data <:+: (Enh.evaluatorMessage p).data := by
  refine ⟨("\nあなたは" : String).data,
    (("です。\n提示された解決策を以下の基準で評価してください：\n\n" : String)
      ++ joinLines (p.problem_solving_framework.evaluation_criteria.map
          (fun c => "- " ++ c))
      ++ ("\n\n" : String)
      ++ p.display_name
      ++ ("の価値観と判断基準に基づいて、\n最も適切な解決策を選び、その理由を説明してください。\n" : String)).data, ?_⟩
  simp [Enh.evaluatorMessage, String.data_append]

/-- The persona's display name is embedded in the `action_planner`
system message. -/
theorem display_in_plannerMessage (p : Enh.PersonaConfig) :
    p.display_name.data <:+: (Enh.plannerMessage p).data := by
  refine ⟨("\nあなたは" : String).data,
    (("です。\n選択された解決策を実行するための詳細な行動計画を作成してください。\n\n以下を含めること：\n1. 即座に実行すべきこと（24時間以内）\n2. 短期的アクション（1週間以内）\n3. 中期的アクション（1ヶ月以内）\n4. 長期的アクション（3ヶ月以内）\n5. 成功の判定基準\n6. 定期的なレビューポイント\n\n" : String)
      ++ p.display_name
      ++ ("の実行スタイルを反映させてください。\n" : String)).data, ?_⟩
  simp [Enh.plannerMessage, String.data_append]

/-- C5: for every persona and problem string, `solve_problem` performs
exactly the four stages analyze → generate → evaluate → plan, in that
order, each stage being exactly one `respond` call against its
purpose-built agent whose system message embeds the persona's display
name, and each stage's task is built from the previous stage's output
(stage 1 from the problem, stage 2 from the stage-1 analysis, stage 3
from the stage-2 solution list, stage 4 from the stage-3 selection). -/
theorem C5_solve_problem_pipeline (p : Enh.PersonaConfig) (problem : String)
    (o : Nat → String) :
    ∃ best_solution,
      (Enh.evaluate_solutions p
        (Enh.generate_solutions p
          (Enh.analyze_problem p problem (o 0)).1 (o 1)).1 (o 2)).1 =
        some best_solution ∧
      Enh.solve_problem p problem o =
        some (⟨problem,
               (Enh.analyze_problem p problem (o 0)).1,
               best_solution,
               (Enh.create_action_plan p best_solution (o 3)).1⟩,
              [(Enh.analyze_problem p problem (o 0)).2,
               (Enh.generate_solutions p
                 (Enh.analyze_problem p problem (o 0)).1 (o 1)).2,
               (Enh.evaluate_solutions p
                 (Enh.generate_solutions p
                   (Enh.analyze_problem p problem (o 0)).1 (o 1)).1 (o 2)).2,
               (Enh.create_action_plan p best_solution (o 3)).2]) ∧
      ((Enh.analyze_problem p problem (o 0)).2.agentName = "problem_analyzer" ∧
       (Enh.generate_solutions p
         (Enh.analyze_problem p problem (o 0)).1 (o 1)).2.agentName =
         "solution_generator" ∧
       (Enh.evaluate_solutions p
         (Enh.generate_solutions p
           (Enh.analyze_problem p problem (o 0)).1 (o 1)).1 (o 2)).2.agentName =
         "solution_evaluator" ∧
       (Enh.create_action_plan p best_solution (o 3)).2.agentName =
         "action_planner") ∧
      ((Enh.analyze_problem p problem (o 0)).2.task =
         "次の問題を分析してください: " ++ problem ∧
       (Enh.generate_solutions p
         (Enh.analyze_problem p problem (o 0)).1 (o 1)).2.task =
         Enh.problemDescription (Enh.analyze_problem p problem (o 0)).1 ∧
       (Enh.evaluate_solutions p
         (Enh.generate_solutions p
           (Enh.analyze_problem p problem (o 0)).1 (o 1)).1 (o 2)).2.task =
         "次の解決策を評価してください:\n" ++
           joinPara (Enh.solutionLabelsFrom 0
             (Enh.generate_solutions p
               (Enh.analyze_problem p problem (o 0)).1 (o 1)).1) ∧
       (Enh.create_action_plan p best_solution (o 3)).2.task =
         Enh.solutionText best_solution) ∧
      (p.display_name.data <:+:
         (Enh.analyze_problem p problem (o 0)).2.systemMessage.data ∧
       p.display_name.data <:+:
         (Enh.generate_solutions p
           (Enh.analyze_problem p problem (o 0)).1 (o 1)).2.systemMessage.data ∧
       p.display_name.data <:+:
         (Enh.evaluate_solutions p
           (Enh.generate_solutions p
             (Enh.analyze_problem p problem (o 0)).1 (o 1)).1
           (o 2)).2.systemMessage.data ∧
       p.display_name.data <:+:
         (Enh.create_action_plan p best_solution
           (o 3)).2.systemMessage.data) := by
  refine ⟨Enh.generatedSolutions.head (by simp [Enh.generatedSolutions]),
    rfl, rfl, ⟨rfl, rfl, rfl, rfl⟩, ⟨rfl, rfl, rfl, rfl⟩,
    display_in_analyzerMessage p, display_in_generatorMessage p,
    display_in_evaluatorMessage p, display_in_plannerMessage p⟩

/-- C6 counterexample: the battle over three pairwise-distinct personas
`a`, `b`, `c` — where `a` and `b` share the display name `X` — still
issues 3 + 1 collaborator calls, but the `solutions` dict is keyed by
display name, so `b`'s response overwrites `a`'s and the judge task does
not contain `a`'s solution `s0`. -/
theorem C6_counterexample :
    ([Enh.ceA, Enh.ceB, Enh.ceC] : List Enh.PersonaConfig).Nodup ∧
    (Enh.battle [Enh.ceA, Enh.ceB, Enh.ceC] "prob" Enh.sampleOracle).2.map
        RespondCall.agentName =
      ["a_battler", "b_battler", "c_battler", "judge"] ∧
    Enh.sampleOracle 0 = "s0" ∧
    ((Enh.battle [Enh.ceA, Enh.ceB, Enh.ceC] "prob"
        Enh.sampleOracle).2[3]?).map RespondCall.task =
      some "次の解決策を評価してください:\n\nX:\ns1\n\nY:\ns2" ∧
    ¬ ("s0" : String).data <:+:
        ("次の解決策を評価してください:\n\nX:\ns1\n\nY:\ns2" : String).data := by
  refine ⟨by decide, by decide, rfl, by decide, by decide⟩

/-- C6 (amended): for every battle over three personas with
pairwise-distinct *display names* and any problem string, exactly one
solution call is issued per persona, in selection order, followed by
exactly one judge call whose task contains every per-persona solution —
four collaborator invocations in total.  (The claim's unqualified
"distinct personas" fails only when two distinct personas share a
display name, since the solutions dict is keyed by display name.) -/
theorem C6_battle_three_plus_judge (p1 p2 p3 : Enh.PersonaConfig)
    (problem : String) (o : Nat → String)
    (hd : ([p1.display_name, p2.display_name, p3.display_name] :
      List String).Nodup) :
    (Enh.battle [p1, p2, p3] problem o).2 =
      [⟨battlerAgentName p1.name, Enh.battlerMessage p1, problem⟩,
       ⟨battlerAgentName p2.name, Enh.battlerMessage p2, problem⟩,
       ⟨battlerAgentName p3.name, Enh.battlerMessage p3, problem⟩,
       ⟨"judge", Enh.judgeMessage,
        "次の解決策を評価してください:\n\n" ++ Enh.solutionsJoined
          [(p1.display_name, o 0), (p2.display_name, o 1),
           (p3.display_name, o 2)]⟩] ∧
    (o 0).data <:+:
      ("次の解決策を評価してください:\n\n" ++ Enh.solutionsJoined
        [(p1.display_name, o 0), (p2.display_name, o 1),
         (p3.display_name, o 2)]).data ∧
    (o 1).data <:+:
      ("次の解決策を評価してください:\n\n" ++ Enh.solutionsJoined
        [(p1.display_name, o 0), (p2.display_name, o 1),
         (p3.display_name, o 2)]).data ∧
    (o 2).data <:+:
      ("次の解決策を評価してください:\n\n" ++ Enh.solutionsJoined
        [(p1.display_name, o 0), (p2.display_name, o 1),
         (p3.display_name, o 2)]).data := by
  simp only [List.nodup_cons, List.mem_cons, List.not_mem_nil, or_false,
    List.mem_singleton, List.nodup_nil, and_true, not_or] at hd
  obtain ⟨⟨h12, h13⟩, h23⟩ := hd
  refine ⟨?_, ?_, ?_, ?_⟩
  · simp [Enh.battle, Enh.battleLoop, dinsert, h12, h13, h23]
  · refine ⟨("次の解決策を評価してください:\n\n" : String).data
        ++ p1.display_name.data ++ (":\n" : String).data,
      (("\n\n" : String) ++ p2.display_name ++ (":\n" : String) ++ o 1
        ++ ("\n\n" : String) ++ p3.display_name ++ (":\n" : String)
        ++ o 2).data, ?_⟩
    simp [Enh.solutionsJoined, joinPara, String.data_append]
  · refine ⟨(("次の解決策を評価してください:\n\n" : String)
        ++ p1.display_name ++ (":\n" : String) ++ o 0 ++ ("\n\n" : String)
        ++ p2.display_name ++ (":\n" : String)).data,
      (("\n\n" : String) ++ p3.display_name ++ (":\n" : String)
        ++ o 2).data, ?_⟩
    simp [Enh.solutionsJoined, joinPara, String.data_append]
  · refine ⟨(("次の解決策を評価してください:\n\n" : String)
        ++ p1.display_name ++ (":\n" : String) ++ o 0 ++ ("\n\n" : String)
        ++ p2.display_name ++ (":\n" : String) ++ o 1 ++ ("\n\n" : String)
        ++ p3.display_name ++ (":\n" : String)).data, [], ?_⟩
    simp [Enh.solutionsJoined, joinPara, String.data_append]

/-- Witness for the amended C6: three personas with distinct display
names produce exactly the three battler calls, in order, then the judge
call. -/
theorem C6_battle_three_plus_judge_witness :
    (Enh.battle [Enh.wA, Enh.wB, Enh.wC] "P" Enh.sampleOracle).2.map
        RespondCall.agentName =
      ["a_battler", "b_battler", "c_battler", "judge"] := by
  have h := C6_battle_three_plus_judge Enh.wA Enh.wB Enh.wC "P"
    Enh.sampleOracle (by decide)
  rw [h.1]
  rfl

/-- Mutating the dict object at one reference leaves the contents at
every other reference unchanged. -/
theorem mutateAll_mem_ne {α : Type} (r q : Nat) (hne : q ≠ r) :
    ∀ (ops : List (DictOp α)) (h : Heap α),
      (mutateAll h r ops).mem q = h.mem q := by
  intro ops
  induction ops with
  | nil => intro h; rfl
  | cons op rest ih =>
    intro h
    show (mutateAll (mutateAt h r op) r rest).mem q = h.mem q
    rw [ih]
    simp [mutateAt, hne]

/-- Mutations through the reference returned by the copying accessor
never change the internal registry. -/
theorem copy_mutation_frame {α : Type} (h : Heap α) (internalRef : Nat)
    (href : internalRef < h.nextRef) (ops : List (DictOp α)) :
    (mutateAll (copyAccessor h internalRef).2
        (copyAccessor h internalRef).1 ops).mem internalRef =
      h.mem internalRef := by
  have hne : internalRef ≠ h.nextRef := Nat.ne_of_lt href
  show (mutateAll (copyAccessor h internalRef).2 h.nextRef ops).mem
      internalRef = h.mem internalRef
  rw [mutateAll_mem_ne h.nextRef internalRef hne ops]
  simp [copyAccessor, hne]

/-- A one-entry category registry heap (internal dict at reference 0). -/
def demoHeapCat : Heap String :=
  ⟨1, fun r => if r = 0 then [("future", "未来")] else []⟩

/-- A one-entry persona registry heap (internal dict at reference 0). -/
def demoHeapPer : Heap Base.PersonaConfig :=
  ⟨1, fun r =>
    if r = 0 then [("alpha", ⟨"alpha", "Alpha", "alpha traits", []⟩)]
    else []⟩

/-- C10: the `personas` / `categories` accessors return a fresh copy of
the internal registry: the returned mapping has the same contents, and
any sequence of additions, deletions or replacements performed on it
leaves the internal registry — and hence every later lookup and every
later agent construction — exactly as if the mutation never happened. -/
theorem C10_accessor_returns_fresh_copy :
    (∀ (α : Type) (h : Heap α) (internalRef : Nat),
      internalRef < h.nextRef →
      ∀ (ops : List (DictOp α)) (k : String),
        (copyAccessor h internalRef).2.mem (copyAccessor h internalRef).1 =
          h.mem internalRef ∧
        (mutateAll (copyAccessor h internalRef).2
            (copyAccessor h internalRef).1 ops).mem internalRef =
          h.mem internalRef ∧
        alookup ((mutateAll (copyAccessor h internalRef).2
            (copyAccessor h internalRef).1 ops).mem internalRef) k =
          alookup (h.mem internalRef) k) ∧
    (∀ (h : Heap Base.PersonaConfig) (internalRef : Nat),
      internalRef < h.nextRef →
      ∀ (ops : List (DictOp Base.PersonaConfig))
        (categories : List (String × String)) (pk ck : String),
        Base.create_agent
          ⟨(mutateAll (copyAccessor h internalRef).2
              (copyAccessor h internalRef).1 ops).mem internalRef,
           categories⟩ pk ck =
          Base.create_agent ⟨h.mem internalRef, categories⟩ pk ck) := by
  constructor
  · intro α h internalRef href ops k
    have hmain := copy_mutation_frame h internalRef href ops
    refine ⟨by simp [copyAccessor], hmain, by rw [hmain]⟩
  · intro h internalRef href ops categories pk ck
    rw [copy_mutation_frame h internalRef href ops]

/-- Witness for C10: deleting and overwriting entries of the copy
returned for a concrete one-entry registry leaves the internal registry
and subsequent agent construction untouched. -/
theorem C10_accessor_returns_fresh_copy_witness :
    (mutateAll (copyAccessor demoHeapCat 0).2 (copyAccessor demoHeapCat 0).1
        [DictOp.set "future" "X", DictOp.del "future"]).mem 0 =
      demoHeapCat.mem 0 ∧
    alookup ((mutateAll (copyAccessor demoHeapCat 0).2
        (copyAccessor demoHeapCat 0).1
        [DictOp.set "future" "X", DictOp.del "future"]).mem 0) "future" =
      alookup (demoHeapCat.mem 0) "future" ∧
    Base.create_agent
      ⟨(mutateAll (copyAccessor demoHeapPer 0).2 (copyAccessor demoHeapPer 0).1
          [DictOp.del "alpha"]).mem 0, [("x", "X")]⟩ "alpha" "x" =
      Base.create_agent ⟨demoHeapPer.mem 0, [("x", "X")]⟩ "alpha" "x" :=
  ⟨(C10_accessor_returns_fresh_copy.1 String demoHeapCat 0 (by decide)
      [DictOp.set "future" "X", DictOp.del "future"] "future").2.1,
   (C10_accessor_returns_fresh_copy.1 String demoHeapCat 0 (by decide)
      [DictOp.set "future" "X", DictOp.del "future"] "future").2.2,
   C10_accessor_returns_fresh_copy.2 demoHeapPer 0 (by decide)
      [DictOp.del "alpha"] [("x", "X")] "alpha" "x"⟩

/-- `splitCh` always returns at least one chunk. -/
theorem splitCh_ne_nil (c : Char) (l : List Char) : splitCh c l ≠ [] := by
  induction l with
  | nil => simp [splitCh]
  | cons x xs ih =>
    rw [splitCh]
    cases h : splitCh c xs with
    | nil => exact absurd h ih
    | cons a as => dsimp only; split <;> simp

/-- Splitting around an explicit separator splits the two sides
independently. -/
theorem splitCh_append_cons (c : Char) (b M : List Char) :
    splitCh c (b ++ c :: M) = splitCh c b ++ splitCh c M := by
  induction b with
  | nil =>
    simp only [List.nil_append]
    cases h : splitCh c M with
    | nil => exact absurd h (splitCh_ne_nil c M)
    | cons a as =>
      simp [splitCh, h]
  | cons x xs ih =>
    rw [List.cons_append, splitCh, ih]
    cases h : splitCh c xs with
    | nil => exact absurd h (splitCh_ne_nil c xs)
    | cons a as =>
      rw [splitCh, h]
      dsimp only [List.cons_append]
      split <;> simp

/-- A separator-free list splits into exactly itself. -/
theorem splitCh_of_not_mem (c : Char) (l : List Char) (h : c ∉ l) :
    splitCh c l = [l] := by
  induction l with
  | nil => rfl
  | cons x xs ih =>
    have hx : x ≠ c := fun he => h (he ▸ List.mem_cons_self x xs)
    have hxs : c ∉ xs := fun hm => h (List.mem_cons_of_mem _ hm)
    rw [splitCh, ih hxs]
    dsimp only
    rw [if_neg hx]

/-- No chunk produced by `splitCh` contains the separator. -/
theorem mem_splitCh_not_mem (c : Char) (l : List Char) :
    ∀ l' ∈ splitCh c l, c ∉ l' := by
  induction l with
  | nil =>
    intro l' hl'
    simp [splitCh] at hl'
    simp [hl']
  | cons x xs ih =>
    intro l' hl'
    rw [splitCh] at hl'
    cases h : splitCh c xs with
    | nil => exact absurd h (splitCh_ne_nil c xs)
    | cons a as =>
      rw [h] at hl'
      dsimp only at hl'
      have hmem_a : a ∈ splitCh c xs := by rw [h]; exact List.mem_cons_self a as
      by_cases hx : x = c
      · rw [if_pos hx] at hl'
        rcases List.mem_cons.mp hl' with he | hmem
        · simp [he]
        · exact ih l' (h ▸ hmem)
      · rw [if_neg hx] at hl'
        rcases List.mem_cons.mp hl' with he | hmem
        · subst he
          intro hc
          rcases List.mem_cons.mp hc with he2 | hmem2
          · exact hx he2.symm
          · exact ih a hmem_a hmem2
        · exact ih l' (by rw [h]; exact List.mem_cons_of_mem a hmem)

/-- `joinLines` at the character level. -/
theorem data_joinLines (L : List String) :
    (joinLines L).data = joinCh '\n' (L.map String.data) := by
  induction L with
  | nil => rfl
  | cons x t ih =>
    cases t with
    | nil => rfl
    | cons y t' =>
      show (x ++ "\n" ++ joinLines (y :: t')).data =
        x.data ++ '\n' :: joinCh '\n' ((y :: t').map String.data)
      rw [String.data_append, String.data_append, ih]
      simp

/-- Splitting a separator-joined list of separator-free chunks recovers
the chunks. -/
theorem splitCh_joinCh (c : Char) :
    ∀ (L : List (List Char)), L ≠ [] → (∀ l ∈ L, c ∉ l) →
      splitCh c (joinCh c L) = L := by
  intro L
  induction L with
  | nil => intro h; exact absurd rfl h
  | cons l t ih =>
    intro _ hfree
    cases t with
    | nil =>
      show splitCh c l = [l]
      exact splitCh_of_not_mem c l (hfree l (List.mem_cons_self l []))
    | cons l' t' =>
      show splitCh c (l ++ c :: joinCh c (l' :: t')) = l :: l' :: t'
      rw [splitCh_append_cons,
        splitCh_of_not_mem c l (hfree l (List.mem_cons_self _ _)),
        ih (by simp) (fun x hx => hfree x (List.mem_cons_of_mem l hx))]
      rfl

/-- `Nat.digitChar` never produces a newline. -/
theorem digitChar_ne_nl (m : Nat) : Nat.digitChar m ≠ '\n' := by
  rcases Nat.lt_or_ge m 16 with h | h
  · interval_cases m <;> decide
  · unfold Nat.digitChar
    repeat rw [if_neg (by omega)]
    decide

/-- `Nat.toDigitsCore` never produces a newline. -/
theorem toDigitsCore_ne_nl (fuel : Nat) :
    ∀ (n : Nat) (acc : List Char), '\n' ∉ acc →
      '\n' ∉ Nat.toDigitsCore 10 fuel n acc := by
  induction fuel with
  | zero =>
    intro n acc hacc
    simpa [Nat.toDigitsCore] using hacc
  | succ fuel ih =>
    intro n acc hacc
    rw [Nat.toDigitsCore]
    have hcons : '\n' ∉ Nat.digitChar (n % 10) :: acc := by
      intro hmem
      rcases List.mem_cons.mp hmem with he | hm
      · exact digitChar_ne_nl (n % 10) he.symm
      · exact hacc hm
    split
    · exact hcons
    · exact ih _ _ hcons

/-- The decimal rendering of a natural number contains no newline. -/
theorem nl_not_in_toString_nat (n : Nat) : '\n' ∉ (toString n).data :=
  toDigitsCore_ne_nl (n + 1) n [] (by simp)

/-- Numbering a nonempty list yields a nonempty list. -/
theorem numberedFrom_ne_nil (i : Nat) (ss : List String) (h : ss ≠ []) :
    Enh.numberedFrom i ss ≠ [] := by
  cases ss with
  | nil => exact absurd rfl h
  | cons s rest => simp [Enh.numberedFrom]

/-- Numbered lines over newline-free steps are newline-free. -/
theorem numberedFrom_nl_free (ss : List String) :
    ∀ (i : Nat), (∀ s ∈ ss, '\n' ∉ s.data) →
      ∀ l ∈ (Enh.numberedFrom i ss).map String.data, '\n' ∉ l := by
  induction ss with
  | nil =>
    intro i _ l hl
    simp [Enh.numberedFrom] at hl
  | cons s rest ih =>
    intro i h l hl
    simp only [Enh.numberedFrom, List.map_cons, List.mem_cons] at hl
    rcases hl with he | hmem
    · subst he
      simp only [String.data_append, List.mem_append, not_or]
      exact ⟨⟨nl_not_in_toString_nat (i + 1), by decide⟩,
        h s (List.mem_cons_self s rest)⟩
    · exact ih (i + 1) (fun x hx => h x (List.mem_cons_of_mem s hx)) l hmem

/-- Dashed lines over newline-free entries are newline-free. -/
theorem dashed_nl_free (ss : List String)
    (h : ∀ s ∈ ss, '\n' ∉ s.data) :
    ∀ l ∈ (ss.map (fun q => "- " ++ q)).map String.data, '\n' ∉ l := by
  intro l hl
  simp only [List.map_map, List.mem_map, Function.comp] at hl
  obtain ⟨q, hq, rfl⟩ := hl
  simp only [String.data_append, List.mem_append, not_or]
  exact ⟨by decide, h q hq⟩

set_option maxRecDepth 8192 in
set_option maxHeartbeats 1000000 in
/-- The line decomposition of the rendered problem-solving prompt, for
personas whose framework entries, framework name and display name are
newline-free and whose framework lists are nonempty. -/
theorem lines_problemSolvingMessage (p : Enh.PersonaConfig)
    (hdisp : '\n' ∉ p.display_name.data)
    (hfname : '\n' ∉ p.problem_solving_framework.name.data)
    (hsteps : ∀ s ∈ p.problem_solving_framework.steps, '\n' ∉ s.data)
    (hqs : ∀ s ∈ p.problem_solving_framework.key_questions, '\n' ∉ s.data)
    (hcs : ∀ s ∈ p.problem_solving_framework.evaluation_criteria,
      '\n' ∉ s.data)
    (hts : ∀ s ∈ p.problem_solving_framework.tools, '\n' ∉ s.data)
    (hsne : p.problem_solving_framework.steps ≠ [])
    (hqne : p.problem_solving_framework.key_questions ≠ [])
    (hcne : p.problem_solving_framework.evaluation_criteria ≠ [])
    (htne : p.problem_solving_framework.tools ≠ []) :
    splitCh '\n' (Enh.problemSolvingMessage p).data =
      splitCh '\n' p.base_traits.data
      ++ [([] : List Char),
          ("【問題解決マスターとしての使命】" : String).data,
          ("あなたは" ++ p.display_name
            ++ "として、あらゆる問題を独自の手法で解決します。").data,
          ([] : List Char)]
      ++ splitCh '\n' p.problem_solving_style.data
      ++ [([] : List Char),
          ("【問題解決フレームワーク: "
            ++ p.problem_solving_framework.name ++ "】").data,
          ("ステップ:" : String).data]
      ++ (Enh.numberedFrom 0 p.problem_solving_framework.steps).map
          String.data
      ++ [([] : List Char), ("【重要な問い】" : String).data]
      ++ (p.problem_solving_framework.key_questions.map
          (fun q => "- " ++ q)).map String.data
      ++ [([] : List Char), ("【評価基準】" : String).data]
      ++ (p.problem_solving_framework.evaluation_criteria.map
          (fun c => "- " ++ c)).map String.data
      ++ [([] : List Char), ("【使用ツール】" : String).data]
      ++ (p.problem_solving_framework.tools.map
          (fun t => "- " ++ t)).map String.data
      ++ ([] : List Char) :: splitCh '\n' (Enh.promptTail p).data := by
  have hform : (Enh.problemSolvingMessage p).data =
      p.base_traits.data ++ '\n' ::
      (([] : List Char) ++ '\n' ::
      (("【問題解決マスターとしての使命】" : String).data ++ '\n' ::
      ((("あなたは" ++ p.display_name
          ++ "として、あらゆる問題を独自の手法で解決します。") :
            String).data ++ '\n' ::
      (([] : List Char) ++ '\n' ::
      (p.problem_solving_style.data ++ '\n' ::
      (([] : List Char) ++ '\n' ::
      ((("【問題解決フレームワーク: "
          ++ p.problem_solving_framework.name ++ "】") : String).data ++ '\n' ::
      (("ステップ:" : String).data ++ '\n' ::
      ((joinLines (Enh.numberedFrom 0
          p.problem_solving_framework.steps)).data ++ '\n' ::
      (([] : List Char) ++ '\n' ::
      (("【重要な問い】" : String).data ++ '\n' ::
      ((joinLines (p.problem_solving_framework.key_questions.map
          (fun q => "- " ++ q))).data ++ '\n' ::
      (([] : List Char) ++ '\n' ::
      (("【評価基準】" : String).data ++ '\n' ::
      ((joinLines (p.problem_solving_framework.evaluation_criteria.map
          (fun c => "- " ++ c))).data ++ '\n' ::
      (([] : List Char) ++ '\n' ::
      (("【使用ツール】" : String).data ++ '\n' ::
      ((joinLines (p.problem_solving_framework.tools.map
          (fun t => "- " ++ t))).data ++ '\n' ::
      (([] : List Char) ++ '\n' ::
        (Enh.promptTail p).data))))))))))))))))))) := by
    simp [Enh.problemSolvingMessage, Enh.promptTail, String.data_append,
      List.append_assoc]
  rw [hform]
  simp only [splitCh_append_cons]
  have h0 : splitCh '\n' ([] : List Char) = [[]] := rfl
  have h1 : splitCh '\n' ("【問題解決マスターとしての使命】" : String).data =
      [("【問題解決マスターとしての使命】" : String).data] :=
    splitCh_of_not_mem _ _ (by decide)
  have hmline : '\n' ∉ (("あなたは" ++ p.display_name
      ++ "として、あらゆる問題を独自の手法で解決します。") : String).data := by
    simp only [String.data_append, List.mem_append, not_or]
    exact ⟨⟨by decide, hdisp⟩, by decide⟩
  have h2 := splitCh_of_not_mem '\n' _ hmline
  have hfwnf : '\n' ∉ (("【問題解決フレームワーク: "
      ++ p.problem_solving_framework.name ++ "】") : String).data := by
    simp only [String.data_append, List.mem_append, not_or]
    exact ⟨⟨by decide, hfname⟩, by decide⟩
  have h3 := splitCh_of_not_mem '\n' _ hfwnf
  have h4 : splitCh '\n' ("ステップ:" : String).data =
      [("ステップ:" : String).data] := splitCh_of_not_mem _ _ (by decide)
  have h5 : splitCh '\n'
      (joinLines (Enh.numberedFrom 0 p.problem_solving_framework.steps)).data =
      (Enh.numberedFrom 0 p.problem_solving_framework.steps).map String.data := by
    rw [data_joinLines]
    exact splitCh_joinCh '\n' _
      (by simpa using numberedFrom_ne_nil 0 _ hsne)
      (numberedFrom_nl_free _ 0 hsteps)
  have h6 : splitCh '\n' ("【重要な問い】" : String).data =
      [("【重要な問い】" : String).data] := splitCh_of_not_mem _ _ (by decide)
  have h7 : splitCh '\n'
      (joinLines (p.problem_solving_framework.key_questions.map
        (fun q => "- " ++ q))).data =
      (p.problem_solving_framework.key_questions.map
        (fun q => "- " ++ q)).map String.data := by
    rw [data_joinLines]
    exact splitCh_joinCh '\n' _ (by simpa using hqne) (dashed_nl_free _ hqs)
  have h8 : splitCh '\n' ("【評価基準】" : String).data =
      [("【評価基準】" : String).data] := splitCh_of_not_mem _ _ (by decide)
  have h9 : splitCh '\n'
      (joinLines (p.problem_solving_framework.evaluation_criteria.map
        (fun c => "- " ++ c))).data =
      (p.problem_solving_framework.evaluation_criteria.map
        (fun c => "- " ++ c)).map String.data := by
    rw [data_joinLines]
    exact splitCh_joinCh '\n' _ (by simpa using hcne) (dashed_nl_free _ hcs)
  have h10 : splitCh '\n' ("【使用ツール】" : String).data =
      [("【使用ツール】" : String).data] := splitCh_of_not_mem _ _ (by decide)
  have h11 : splitCh '\n'
      (joinLines (p.problem_solving_framework.tools.map
        (fun t => "- " ++ t))).data =
      (p.problem_solving_framework.tools.map
        (fun t => "- " ++ t)).map String.data := by
    rw [data_joinLines]
    exact splitCh_joinCh '\n' _ (by simpa using htne) (dashed_nl_free _ hts)
  rw [h0, h1, h2, h3, h4, h5, h6, h7, h8, h9, h10, h11]
  simp only [List.cons_append, List.nil_append, List.append_assoc,
    List.singleton_append]

/-- `findMark` skips any leading lines that are not the marker. -/
theorem findMark_skip (mark : List Char) (L1 L2 : List (List Char))
    (h : mark ∉ L1) : findMark mark (L1 ++ L2) = findMark mark L2 := by
  induction L1 with
  | nil => rfl
  | cons l t ih =>
    have hl : l ≠ mark := fun he => h (he ▸ List.mem_cons_self l t)
    rw [List.cons_append, findMark, if_neg hl]
    exact ih (fun hm => h (List.mem_cons_of_mem l hm))

/-- `collectUntilBlank` collects exactly the nonblank lines before the
first blank line. -/
theorem collectUntilBlank_spec (X R : List (List Char))
    (h : ∀ l ∈ X, l ≠ []) :
    collectUntilBlank (X ++ [] :: R) = some (X, R) := by
  induction X with
  | nil => rfl
  | cons l t ih =>
    rw [List.cons_append, collectUntilBlank,
      if_neg (h l (List.mem_cons_self l t)),
      ih (fun x hx => h x (List.mem_cons_of_mem l hx))]

/-- Numbered lines are never blank. -/
theorem numberedFrom_ne_blank (ss : List String) :
    ∀ (i : Nat), ∀ l ∈ (Enh.numberedFrom i ss).map String.data, l ≠ [] := by
  induction ss with
  | nil =>
    intro i l hl
    simp [Enh.numberedFrom] at hl
  | cons s rest ih =>
    intro i l hl
    simp only [Enh.numberedFrom, List.map_cons, List.mem_cons] at hl
    rcases hl with he | hmem
    · subst he
      simp [String.data_append]
    · exact ih (i + 1) l hmem

/-- Dashed lines are never blank. -/
theorem dashed_ne_blank (ss : List String) :
    ∀ l ∈ (ss.map (fun q => "- " ++ q)).map String.data, l ≠ [] := by
  intro l hl
  simp only [List.map_map, List.mem_map, Function.comp] at hl
  obtain ⟨q, _, rfl⟩ := hl
  simp [String.data_append]

/-- `⟨s.data⟩` rebuilds `s`. -/
theorem mk_data (s : String) : (⟨s.data⟩ : String) = s := rfl

/-- Stripping the numbering recovers the steps verbatim. -/
theorem stripNum_roundtrip (ss : List String) :
    ∀ (i : Nat),
      (stripNumFrom i ((Enh.numberedFrom i ss).map String.data)).map
        (fun l => (⟨l⟩ : String)) = ss := by
  induction ss with
  | nil => intro i; rfl
  | cons s rest ih =>
    intro i
    show ((((toString (i + 1) ++ ". " ++ s) : String).data.drop
        ((toString (i + 1)).data.length + 2)) ::
        stripNumFrom (i + 1) ((Enh.numberedFrom (i + 1) rest).map
          String.data)).map (fun l => (⟨l⟩ : String)) = s :: rest
    have hd : ((toString (i + 1) ++ ". " ++ s) : String).data =
        ((toString (i + 1)).data ++ ['.', ' ']) ++ s.data := by
      simp [String.data_append]
    have hlen : ((toString (i + 1)).data ++ ['.', ' ']).length =
        (toString (i + 1)).data.length + 2 := by simp
    rw [List.map_cons, hd, ← hlen, List.drop_left, mk_data, ih (i + 1)]

/-- Stripping the dash prefix recovers the entries verbatim. -/
theorem stripDash_roundtrip (ss : List String) :
    (stripDash ((ss.map (fun q => "- " ++ q)).map String.data)).map
      (fun l => (⟨l⟩ : String)) = ss := by
  induction ss with
  | nil => rfl
  | cons q rest ih =>
    show ((("- " ++ q : String).data.drop 2) ::
        stripDash ((rest.map (fun x => "- " ++ x)).map String.data)).map
          (fun l => (⟨l⟩ : String)) = q :: rest
    have hd : (("- " ++ q : String)).data.drop 2 = q.data := by
      simp [String.data_append]
    rw [List.map_cons, hd, mk_data, ih]

/-- C8 counterexample: two fully-populated personas that differ in
their `steps` lists render to the *same* prompt (a step containing a
newline followed by `2. ` is indistinguishable from two numbered
steps), so no textual re-parse of the rendered prompt can recover the
steps of every fully-populated persona exactly. -/
theorem C8_counterexample :
    Enh.problemSolvingMessage Enh.c8A = Enh.problemSolvingMessage Enh.c8B ∧
    Enh.c8A.problem_solving_framework.steps ≠
      Enh.c8B.problem_solving_framework.steps := by
  refine ⟨rfl, by decide⟩

set_option maxRecDepth 8192 in
set_option maxHeartbeats 1000000 in
/-- C8 (amended): for every persona whose framework fields are all
populated (nonempty lists), whose framework entries, framework name and
display name contain no newline, and whose base traits and style contain
no line equal to the `ステップ:` marker, the rendered problem-solving
prompt embeds every step (numbered, in order) and every key question,
evaluation criterion and tool verbatim and in order, and the textual
re-parser recovers all four lists exactly. -/
theorem C8_prompt_roundtrip (p : Enh.PersonaConfig)
    (hdisp : '\n' ∉ p.display_name.data)
    (hfname : '\n' ∉ p.problem_solving_framework.name.data)
    (hsteps : ∀ s ∈ p.problem_solving_framework.steps, '\n' ∉ s.data)
    (hqs : ∀ s ∈ p.problem_solving_framework.key_questions, '\n' ∉ s.data)
    (hcs : ∀ s ∈ p.problem_solving_framework.evaluation_criteria,
      '\n' ∉ s.data)
    (hts : ∀ s ∈ p.problem_solving_framework.tools, '\n' ∉ s.data)
    (hsne : p.problem_solving_framework.steps ≠ [])
    (hqne : p.problem_solving_framework.key_questions ≠ [])
    (hcne : p.problem_solving_framework.evaluation_criteria ≠ [])
    (htne : p.problem_solving_framework.tools ≠ [])
    (hbase : ("ステップ:" : String).data ∉
      splitCh '\n' p.base_traits.data)
    (hstyle : ("ステップ:" : String).data ∉
      splitCh '\n' p.problem_solving_style.data) :
    parseFramework (Enh.problemSolvingMessage p) =
      some (p.problem_solving_framework.steps,
            p.problem_solving_framework.key_questions,
            p.problem_solving_framework.evaluation_criteria,
            p.problem_solving_framework.tools) := by
  unfold parseFramework
  rw [lines_problemSolvingMessage p hdisp hfname hsteps hqs hcs hts hsne
    hqne hcne htne]
  simp only [List.cons_append, List.nil_append, List.append_assoc]
  have hblank : ([] : List Char) ≠ ("ステップ:" : String).data := by decide
  have hmark1 : ("【問題解決マスターとしての使命】" : String).data ≠
      ("ステップ:" : String).data := by decide
  have hmark2 : (("あなたは" ++ p.display_name
      ++ "として、あらゆる問題を独自の手法で解決します。") : String).data ≠
      ("ステップ:" : String).data := by
    simp [String.data_append]
  have hmark3 : (("【問題解決フレームワーク: "
      ++ p.problem_solving_framework.name ++ "】") : String).data ≠
      ("ステップ:" : String).data := by
    simp [String.data_append]
  simp only [parseFrameworkLines]
  rw [findMark_skip _ _ _ hbase, findMark, if_neg hblank, findMark,
    if_neg hmark1, findMark, if_neg hmark2, findMark, if_neg hblank,
    findMark_skip _ _ _ hstyle, findMark, if_neg hblank, findMark,
    if_neg hmark3, findMark, if_pos rfl]
  simp only [Option.bind_eq_bind, Option.bind]
  rw [collectUntilBlank_spec _ _
    (numberedFrom_ne_blank p.problem_solving_framework.steps 0)]
  simp only [Option.bind_eq_bind, Option.bind]
  rw [expectLine, if_pos rfl]
  simp only [Option.bind_eq_bind, Option.bind]
  rw [collectUntilBlank_spec _ _
    (dashed_ne_blank p.problem_solving_framework.key_questions)]
  simp only [Option.bind_eq_bind, Option.bind]
  rw [expectLine, if_pos rfl]
  simp only [Option.bind_eq_bind, Option.bind]
  rw [collectUntilBlank_spec _ _
    (dashed_ne_blank p.problem_solving_framework.evaluation_criteria)]
  simp only [Option.bind_eq_bind, Option.bind]
  rw [expectLine, if_pos rfl]
  simp only [Option.bind_eq_bind, Option.bind]
  rw [collectUntilBlank_spec _ _
    (dashed_ne_blank p.problem_solving_framework.tools)]
  simp only [Option.bind_eq_bind, Option.bind]
  rw [stripNum_roundtrip p.problem_solving_framework.steps 0,
    stripDash_roundtrip p.problem_solving_framework.key_questions,
    stripDash_roundtrip p.problem_solving_framework.evaluation_criteria,
    stripDash_roundtrip p.problem_solving_framework.tools]

/-- Witness for the amended C8: re-parsing the prompt rendered for the
fully-populated demo persona recovers its framework lists exactly. -/
theorem C8_prompt_roundtrip_witness :
    parseFramework (Enh.problemSolvingMessage Enh.demoPersona) =
      some (["s1", "s2"], ["q1"], ["c1"], ["t1"]) :=
  C8_prompt_roundtrip Enh.demoPersona (by decide) (by decide) (by decide)
    (by decide) (by decide) (by decide) (by decide) (by decide) (by decide)
    (by decide) (by decide) (by decide)

/-- C9: within `ProblemSolvingSession`, the analysis record (except the
echoed `original_problem`), the generated solution list, and the
selected solution are constants independent of the collaborator's
responses; `evaluate_solutions` always returns the first element of its
input list; and only the action plan depends on a response (namely the
fourth one). -/
theorem C9_session_outputs_response_independent :
    (∀ (p : Enh.PersonaConfig) (problem : String) (r r' : String),
      (Enh.analyze_problem p problem r).1 =
        (Enh.analyze_problem p problem r').1 ∧
      (Enh.analyze_problem p problem r).1 =
        ⟨problem, "問題の本質", "根本原因", ["関係者1", "関係者2"],
         ["制約1", "制約2"], "望ましい結果"⟩) ∧
    (∀ (p : Enh.PersonaConfig) (a : Enh.Analysis) (r r' : String),
      (Enh.generate_solutions p a r).1 = (Enh.generate_solutions p a r').1 ∧
      (Enh.generate_solutions p a r).1 = Enh.generatedSolutions) ∧
    (∀ (p : Enh.PersonaConfig) (sols : List Enh.Solution) (r : String),
      (Enh.evaluate_solutions p sols r).1 = sols[0]?) ∧
    (∀ (p : Enh.PersonaConfig) (problem : String) (o o' : Nat → String),
      (Enh.solve_problem p problem o).map (fun x => x.1.analysis) =
        (Enh.solve_problem p problem o').map (fun x => x.1.analysis) ∧
      (Enh.solve_problem p problem o).map (fun x => x.1.solution) =
        (Enh.solve_problem p problem o').map (fun x => x.1.solution)) ∧
    (∀ (p : Enh.PersonaConfig) (problem : String) (o : Nat → String),
      (Enh.solve_problem p problem o).map (fun x => x.1.action_plan) =
        some (o 3)) :=
  ⟨fun _ _ _ _ => ⟨rfl, rfl⟩, fun _ _ _ _ => ⟨rfl, rfl⟩,
   fun _ _ _ => rfl, fun _ _ _ _ => ⟨rfl, rfl⟩, fun _ _ _ => rfl⟩

end PersonaSim
